import Mathlib

/-!
Verification of the odds-similarity prediction engine of the Matttgic/Full
repository: a shallow embedding of the feature-matrix builders
(create_comprehensive_feature_matrix in src/prediction/daily_predictions_workflow.py
and create_feature_matrix in analysis/match_analyzer.py), the target-vector
builder (process_fixture_odds), the similarity engines
(calculate_similarity_for_all_bets, in its daily-workflow and demo variants,
and find_similar_matches), and the workflow start-up, together with theorems
settling the specification's claims about them.

Machine reals (Python floats) are modelled by exact rationals; Python's
round(x, n) (banker's rounding) is modelled by pyRound.
-/

/-- One bookmaker's quoted price for one outcome of one bet market on one
fixture, after numeric coercion of the odd (records whose odd fails
pd.to_numeric are dropped before every pipeline modelled here). -/
structure OddsRecord where
  fixture_id : ℤ
  bookmaker_id : ℤ
  bet_type_name : String
  bet_value : String
  odd : ℚ
deriving DecidableEq, Repr

/-- bet_identifier = bet_type_name + "_" + bet_value (string concatenation,
as in both builders). -/
def betIdentifier (r : OddsRecord) : String :=
  r.bet_type_name ++ "_" ++ r.bet_value

/-- The records of the (fixture_id, bet_identifier) group, in input order
(the rows a pandas groupby on those two keys collects for that key). -/
def groupRecords (l : List OddsRecord) (f : ℤ) (b : String) : List OddsRecord :=
  l.filter (fun r => r.fixture_id == f && betIdentifier r == b)

/-- Number of distinct bookmaker_id values in the group
(groupby(...)['bookmaker_id'].nunique()). -/
def distinctBookmakers (l : List OddsRecord) (f : ℤ) (b : String) : ℕ :=
  (((groupRecords l f b).map (fun r => r.bookmaker_id)).dedup).length

/-- Arithmetic mean of the odd values of a record list
(groupby(...)['odd'].mean() for one group). -/
def meanOdd (g : List OddsRecord) : ℚ :=
  ((g.map (fun r => r.odd)).sum) / (g.length : ℚ)

/-- The (fixture_id, bet_identifier) keys occurring in the data, without
duplicates (the index of the groupby result). -/
def allKeys (l : List OddsRecord) : List (ℤ × String) :=
  ((l.map (fun r => (r.fixture_id, betIdentifier r))).dedup)

/-- The keys whose distinct-bookmaker count meets MIN_BOOKMAKERS_THRESHOLD
(the reliable_bets selection; the threshold is the Python int read from
config, hence modelled as an integer). -/
def reliableKeys (thr : ℤ) (l : List OddsRecord) : List (ℤ × String) :=
  (allKeys l).filter (fun k => decide (thr ≤ (distinctBookmakers l k.1 k.2 : ℤ)))

/-- One row of the mean_odds frame fed to pivot: a reliable key together with
the mean odd of its group. -/
def meanOddsRows (thr : ℤ) (l : List OddsRecord) : List ((ℤ × String) × ℚ) :=
  (reliableKeys thr l).map (fun k => (k, meanOdd (groupRecords l k.1 k.2)))

/-- A cell of the pivoted feature matrix built by
create_comprehensive_feature_matrix: present exactly for reliable keys, with
value the mean odd of the group. -/
def featureCell (thr : ℤ) (l : List OddsRecord) (f : ℤ) (b : String) : Option ℚ :=
  if (f, b) ∈ reliableKeys thr l then some (meanOdd (groupRecords l f b)) else none

/-- Row index of the pivoted matrix (the fixture_id values of mean_odds). -/
def rowsSet (thr : ℤ) (l : List OddsRecord) : Finset ℤ :=
  ((reliableKeys thr l).map Prod.fst).toFinset

/-- Column index of the pivoted matrix (the bet_identifier values of
mean_odds). -/
def colsSet (thr : ℤ) (l : List OddsRecord) : Finset String :=
  ((reliableKeys thr l).map Prod.snd).toFinset

/-- The allow-list restriction applied first by the analyzer variant:
keep records whose bet_type_name is in KEY_BET_TYPES. -/
def keyFilter (kts : List String) (l : List OddsRecord) : List OddsRecord :=
  l.filter (fun r => decide (r.bet_type_name ∈ kts))

/-- A cell of the matrix built by create_feature_matrix in
analysis/match_analyzer.py: the same pipeline run after the KEY_BET_TYPES
allow-list filter. -/
def featureCellA (kts : List String) (thr : ℤ) (l : List OddsRecord)
    (f : ℤ) (b : String) : Option ℚ :=
  featureCell thr (keyFilter kts l) f b

/-- Rows of the mean_odds frame in the analyzer variant. -/
def meanOddsRowsA (kts : List String) (thr : ℤ) (l : List OddsRecord) :
    List ((ℤ × String) × ℚ) :=
  meanOddsRows thr (keyFilter kts l)

/-- process_fixture_odds in the daily workflow: flatten a single fixture's
records, then take the plain mean odd per bet_identifier (groupby on
bet_identifier only — note that no bookmaker-count filter appears in this
function). The result maps a bet_identifier to its mean odd when any record
quotes it. -/
def processFixtureOdds (l : List OddsRecord) (b : String) : Option ℚ :=
  let g := l.filter (fun r => betIdentifier r == b)
  if g.isEmpty then none else some (meanOdd g)

/-- Round a rational to the nearest integer, ties to even (Python round). -/
def roundHalfEven (x : ℚ) : ℤ :=
  let n : ℤ := ⌊x⌋
  let r : ℚ := x - n
  if r < 1/2 then n
  else if 1/2 < r then n + 1
  else if n % 2 = 0 then n else n + 1

/-- Python's round(x, d) on our rational model of floats. -/
def pyRound (d : ℕ) (x : ℚ) : ℚ :=
  ((roundHalfEven (x * (10 : ℚ) ^ d) : ℚ)) / (10 : ℚ) ^ d

/-- The configuration values the similarity engine reads (the thresholds are
Python ints and the tolerance a Python float; no validation is applied to
them anywhere in the source). -/
structure Config where
  SIMILARITY_THRESHOLD : ℚ
  MIN_BOOKMAKERS_THRESHOLD : ℤ
  MIN_SIMILAR_MATCHES_THRESHOLD : ℤ
deriving DecidableEq, Repr

/-- The default configuration of src/config.py. -/
def defaultConfig : Config :=
  { SIMILARITY_THRESHOLD := 1/10
    MIN_BOOKMAKERS_THRESHOLD := 3
    MIN_SIMILAR_MATCHES_THRESHOLD := 10 }

/-- MIN_SIMILARITY_PCT_THRESHOLD of src/config.py (read by the test suite;
the daily workflow engine itself never consults it). -/
def MIN_SIMILARITY_PCT_THRESHOLD : ℚ := 70

/-- KEY_BET_TYPES of src/config.py. -/
def KEY_BET_TYPES : List String :=
  ["Match Winner", "Over/Under", "Both Teams to Score", "Double Chance",
   "Correct Score", "Half Time/Full Time"]

/-- One entry of calculate_similarity_for_all_bets' result dict in the daily
workflow. -/
structure SimilarityResult where
  similarity_percentage : ℚ
  similar_matches_count : ℕ
  total_historical_matches : ℕ
  avg_distance : ℚ
  target_odd : ℚ
  similarity_reference_count : ℕ
deriving DecidableEq, Repr

/-- The distances of a historical column to the target that pass the
similarity tolerance (distances[distances <= SIMILARITY_THRESHOLD]). -/
def passingDistances (col : List ℚ) (t τ : ℚ) : List ℚ :=
  (col.map (fun h => |h - t|)).filter (fun d => decide (d ≤ τ))

/-- The per-bet-identifier body of calculate_similarity_for_all_bets in the
daily workflow, applied to the non-null historical column col and the target
odd t: skip when the column is shorter than MIN_SIMILAR_MATCHES_THRESHOLD,
count distances within SIMILARITY_THRESHOLD (boundary included), and emit
iff the count reaches MIN_SIMILAR_MATCHES_THRESHOLD. -/
def calcSimilarityForBet (cfg : Config) (col : List ℚ) (t : ℚ) :
    Option SimilarityResult :=
  if (col.length : ℤ) < cfg.MIN_SIMILAR_MATCHES_THRESHOLD then none
  else
    let similar := passingDistances col t cfg.SIMILARITY_THRESHOLD
    if cfg.MIN_SIMILAR_MATCHES_THRESHOLD ≤ (similar.length : ℤ) then
      some { similarity_percentage :=
               pyRound 2 (((similar.length : ℚ) / (col.length : ℚ)) * 100)
             similar_matches_count := similar.length
             total_historical_matches := col.length
             avg_distance := pyRound 4 (similar.sum / (similar.length : ℚ))
             target_odd := t
             similarity_reference_count := similar.length }
    else none

/-- calculate_similarity_for_all_bets of the daily workflow: iterate the
target dict, look the identifier up among the matrix columns (a column is
modelled by its list of non-null values), and collect the emitted results. -/
def calculateSimilarityForAllBets (cfg : Config) (M : List (String × List ℚ))
    (targets : List (String × ℚ)) : List (String × SimilarityResult) :=
  targets.filterMap (fun p =>
    match M.lookup p.1 with
    | some col => (calcSimilarityForBet cfg col p.2).map (fun r => (p.1, r))
    | none => none)

/-- One entry of the demo variant's result dict (src/demo_predictions.py). -/
structure DemoSimilarityResult where
  similarity_percentage : ℚ
  similar_matches_count : ℕ
  total_historical_matches : ℕ
  avg_distance : ℚ
  target_odd : ℚ
  confidence_score : ℚ
deriving DecidableEq, Repr

/-- The per-bet-identifier body of calculate_similarity_for_all_bets in
src/demo_predictions.py: the column-length floor is the literal 10 and a
result is emitted as soon as at least one similar match exists. -/
def demoCalcSimilarityForBet (τ : ℚ) (col : List ℚ) (t : ℚ) :
    Option DemoSimilarityResult :=
  if col.length < 10 then none
  else
    let similar := passingDistances col t τ
    if 0 < similar.length then
      some { similarity_percentage :=
               pyRound 2 (((similar.length : ℚ) / (col.length : ℚ)) * 100)
             similar_matches_count := similar.length
             total_historical_matches := col.length
             avg_distance := pyRound 4 (similar.sum / (similar.length : ℚ))
             target_odd := t
             confidence_score := min 100 (((similar.length : ℚ) / 50) * 100) }
    else none

/-- calculate_similarity_for_all_bets of the demo variant. -/
def demoCalculateSimilarityForAllBets (τ : ℚ) (M : List (String × List ℚ))
    (targets : List (String × ℚ)) : List (String × DemoSimilarityResult) :=
  targets.filterMap (fun p =>
    match M.lookup p.1 with
    | some col => (demoCalcSimilarityForBet τ col p.2).map (fun r => (p.1, r))
    | none => none)

/-- One row of the historical matrix as find_similar_matches sees it: a
fixture index entry whose cells may be null. -/
structure HistRow where
  fixture_id : ℤ
  cellOf : String → Option ℚ

/-- The per-row absolute differences over the common bet identifiers; a null
historical cell contributes nothing (pandas mean skips NaN). -/
def rowDiffs (cb : List String) (tv : List (String × ℚ)) (ρ : HistRow) : List ℚ :=
  cb.filterMap (fun b =>
    match ρ.cellOf b, tv.lookup b with
    | some h, some t => some |h - t|
    | _, _ => none)

/-- find_similar_matches of analysis/match_analyzer.py: intersect the target
index with the matrix columns, take the mean absolute difference per row and
keep rows with mean distance strictly below the threshold, sorted ascending.
A row with no non-null common cell has NaN mean and is excluded. -/
def findSimilarMatches (tv : List (String × ℚ)) (cols : List String)
    (rows : List HistRow) (τ : ℚ) : List (ℤ × ℚ) :=
  let cb := (tv.map Prod.fst).filter (fun b => decide (b ∈ cols))
  let dist := rows.filterMap (fun ρ =>
    let ds := rowDiffs cb tv ρ
    if ds.isEmpty then none else some (ρ.fixture_id, ds.sum / (ds.length : ℚ)))
  (dist.filter (fun p => decide (p.2 < τ))).mergeSort (fun a b => decide (a.2 ≤ b.2))

/-- Start-up failure modes the specification demands; the source defines no
such exception. -/
inductive ConfigError where
  | invalidThreshold : ConfigError
deriving DecidableEq, Repr

/-- DailyPredictionsWorkflow.__init__ restricted to the core: it copies the
configuration values unchecked and immediately builds the historical feature
matrix; no validation of the thresholds appears anywhere on this path, so no
error is ever produced. -/
def workflowInit (cfg : Config) (hist : List OddsRecord) :
    Except ConfigError (ℤ → String → Option ℚ) :=
  Except.ok (featureCell cfg.MIN_BOOKMAKERS_THRESHOLD hist)

/-! Helper lemmas about the embedding. -/

lemma mem_reliableKeys {thr : ℤ} {l : List OddsRecord} {f : ℤ} {b : String} :
    (f, b) ∈ reliableKeys thr l ↔
      ((f, b) ∈ allKeys l ∧ thr ≤ (distinctBookmakers l f b : ℤ)) := by
  simp [reliableKeys, List.mem_filter]

lemma mem_allKeys_iff {l : List OddsRecord} {f : ℤ} {b : String} :
    (f, b) ∈ allKeys l ↔ groupRecords l f b ≠ [] := by
  constructor
  · intro h
    simp only [allKeys, List.mem_dedup, List.mem_map] at h
    obtain ⟨r, hr, hk⟩ := h
    intro hnil
    have : r ∈ groupRecords l f b := by
      simp only [groupRecords, List.mem_filter, Bool.and_eq_true, beq_iff_eq]
      exact ⟨hr, by simp [Prod.ext_iff] at hk; exact ⟨hk.1, hk.2⟩⟩
    rw [hnil] at this
    exact absurd this (List.not_mem_nil r)
  · intro h
    obtain ⟨r, hr⟩ := List.exists_mem_of_ne_nil _ h
    simp only [groupRecords, List.mem_filter, Bool.and_eq_true, beq_iff_eq] at hr
    simp only [allKeys, List.mem_dedup, List.mem_map]
    exact ⟨r, hr.1, by rw [hr.2.1, hr.2.2]⟩

lemma featureCell_some {thr : ℤ} {l : List OddsRecord} {f : ℤ} {b : String} {v : ℚ}
    (h : featureCell thr l f b = some v) :
    thr ≤ (distinctBookmakers l f b : ℤ) ∧ groupRecords l f b ≠ [] ∧
      v = meanOdd (groupRecords l f b) := by
  by_cases hm : (f, b) ∈ reliableKeys thr l
  · have hv : v = meanOdd (groupRecords l f b) := by
      simp [featureCell, hm] at h
      exact h.symm
    have hk := mem_reliableKeys.mp hm
    exact ⟨hk.2, mem_allKeys_iff.mp hk.1, hv⟩
  · simp [featureCell, hm] at h

lemma perm_groupRecords {l l' : List OddsRecord} (h : l.Perm l') (f : ℤ) (b : String) :
    (groupRecords l f b).Perm (groupRecords l' f b) :=
  h.filter _

lemma meanOdd_perm {g g' : List OddsRecord} (h : g.Perm g') : meanOdd g = meanOdd g' := by
  unfold meanOdd
  rw [(h.map (fun r => r.odd)).sum_eq, h.length_eq]

lemma distinctBookmakers_perm {l l' : List OddsRecord} (h : l.Perm l') (f : ℤ) (b : String) :
    distinctBookmakers l f b = distinctBookmakers l' f b := by
  unfold distinctBookmakers
  exact (((perm_groupRecords h f b).map _).dedup).length_eq

lemma reliableKeys_perm {thr : ℤ} {l l' : List OddsRecord} (h : l.Perm l') :
    (reliableKeys thr l).Perm (reliableKeys thr l') := by
  unfold reliableKeys allKeys
  have h1 : ((l.map (fun r => (r.fixture_id, betIdentifier r))).dedup).Perm
      ((l'.map (fun r => (r.fixture_id, betIdentifier r))).dedup) :=
    (h.map _).dedup
  have h2 := h1.filter (fun k => decide (thr ≤ (distinctBookmakers l k.1 k.2 : ℤ)))
  have h3 : ((l'.map (fun r => (r.fixture_id, betIdentifier r))).dedup).filter
        (fun k => decide (thr ≤ (distinctBookmakers l k.1 k.2 : ℤ))) =
      ((l'.map (fun r => (r.fixture_id, betIdentifier r))).dedup).filter
        (fun k => decide (thr ≤ (distinctBookmakers l' k.1 k.2 : ℤ))) := by
    refine List.filter_congr ?_
    intro k _
    rw [distinctBookmakers_perm h]
  rw [h3] at h2
  exact h2

lemma featureCell_perm {thr : ℤ} {l l' : List OddsRecord} (h : l.Perm l')
    (f : ℤ) (b : String) : featureCell thr l f b = featureCell thr l' f b := by
  unfold featureCell
  have hmem : ((f, b) ∈ reliableKeys thr l) ↔ ((f, b) ∈ reliableKeys thr l') :=
    (reliableKeys_perm h).mem_iff
  by_cases hm : (f, b) ∈ reliableKeys thr l
  · rw [if_pos hm, if_pos (hmem.mp hm), meanOdd_perm (perm_groupRecords h f b)]
  · rw [if_neg hm, if_neg (fun hc => hm (hmem.mpr hc))]

lemma calcSimilarityForBet_some {cfg : Config} {col : List ℚ} {t : ℚ}
    {r : SimilarityResult} (h : calcSimilarityForBet cfg col t = some r) :
    cfg.MIN_SIMILAR_MATCHES_THRESHOLD ≤ (col.length : ℤ) ∧
    cfg.MIN_SIMILAR_MATCHES_THRESHOLD ≤
      ((passingDistances col t cfg.SIMILARITY_THRESHOLD).length : ℤ) ∧
    r = { similarity_percentage :=
            pyRound 2 ((((passingDistances col t cfg.SIMILARITY_THRESHOLD).length : ℚ) /
              (col.length : ℚ)) * 100)
          similar_matches_count := (passingDistances col t cfg.SIMILARITY_THRESHOLD).length
          total_historical_matches := col.length
          avg_distance := pyRound 4 ((passingDistances col t cfg.SIMILARITY_THRESHOLD).sum /
            ((passingDistances col t cfg.SIMILARITY_THRESHOLD).length : ℚ))
          target_odd := t
          similarity_reference_count :=
            (passingDistances col t cfg.SIMILARITY_THRESHOLD).length } := by
  simp only [calcSimilarityForBet] at h
  split_ifs at h with h1 h2
  · exact ⟨le_of_not_lt h1, h2, (Option.some.inj h).symm⟩

lemma mem_calcAll {cfg : Config} {M : List (String × List ℚ)}
    {targets : List (String × ℚ)} {b : String} {r : SimilarityResult}
    (h : (b, r) ∈ calculateSimilarityForAllBets cfg M targets) :
    ∃ col, M.lookup b = some col ∧ calcSimilarityForBet cfg col r.target_odd = some r := by
  simp only [calculateSimilarityForAllBets, List.mem_filterMap] at h
  obtain ⟨p, _, hp⟩ := h
  split at hp
  · rename_i col hl
    rw [Option.map_eq_some'] at hp
    obtain ⟨r', hr', heq⟩ := hp
    injection heq with hb hr
    subst hb
    subst hr
    have ht : r'.target_odd = p.2 := by
      rw [(calcSimilarityForBet_some hr').2.2]
    exact ⟨col, hl, by rw [ht]; exact hr'⟩
  · exact absurd hp (by simp)

lemma demoCalc_some {τ : ℚ} {col : List ℚ} {t : ℚ} {r : DemoSimilarityResult}
    (h : demoCalcSimilarityForBet τ col t = some r) :
    10 ≤ col.length ∧ 0 < (passingDistances col t τ).length ∧
      r.similar_matches_count = (passingDistances col t τ).length ∧
      r.total_historical_matches = col.length := by
  simp only [demoCalcSimilarityForBet] at h
  split_ifs at h with h1 h2
  · refine ⟨le_of_not_lt h1, h2, ?_, ?_⟩
    · rw [← Option.some.inj h]
    · rw [← Option.some.inj h]

lemma mem_demoCalcAll {τ : ℚ} {M : List (String × List ℚ)}
    {targets : List (String × ℚ)} {b : String} {r : DemoSimilarityResult}
    (h : (b, r) ∈ demoCalculateSimilarityForAllBets τ M targets) :
    ∃ col t, M.lookup b = some col ∧ demoCalcSimilarityForBet τ col t = some r := by
  simp only [demoCalculateSimilarityForAllBets, List.mem_filterMap] at h
  obtain ⟨p, _, hp⟩ := h
  split at hp
  · rename_i col hl
    rw [Option.map_eq_some'] at hp
    obtain ⟨r', hr', heq⟩ := hp
    injection heq with hb hr
    subst hb
    subst hr
    exact ⟨col, p.2, hl, hr'⟩
  · exact absurd hp (by simp)

lemma roundHalfEven_nonneg {x : ℚ} (h : 0 ≤ x) : 0 ≤ roundHalfEven x := by
  have hf : (0 : ℤ) ≤ ⌊x⌋ := Int.floor_nonneg.mpr h
  simp only [roundHalfEven]
  split_ifs <;> omega

lemma roundHalfEven_le {x : ℚ} {n : ℤ} (h : x ≤ n) : roundHalfEven x ≤ n := by
  have hfl : (⌊x⌋ : ℚ) ≤ x := Int.floor_le x
  have hfn : ⌊x⌋ ≤ n := by
    have := Int.floor_le_floor h
    rwa [Int.floor_intCast] at this
  simp only [roundHalfEven]
  split_ifs with h1 h2 h3
  · exact hfn
  · by_contra hc
    push_neg at hc
    have hn : n ≤ ⌊x⌋ := by omega
    have : x ≤ (⌊x⌋ : ℚ) := le_trans h (by exact_mod_cast hn)
    have hx0 : x - (⌊x⌋ : ℚ) ≤ 0 := by linarith
    linarith
  · exact hfn
  · by_contra hc
    push_neg at hc
    have hn : n ≤ ⌊x⌋ := by omega
    have : x ≤ (⌊x⌋ : ℚ) := le_trans h (by exact_mod_cast hn)
    have hx0 : x - (⌊x⌋ : ℚ) ≤ 0 := by linarith
    have hhalf : ¬(x - (⌊x⌋ : ℚ) < 1/2) := h1
    push_neg at hhalf
    linarith

lemma pyRound_nonneg {d : ℕ} {x : ℚ} (h : 0 ≤ x) : 0 ≤ pyRound d x := by
  unfold pyRound
  have hp : (0 : ℚ) < (10 : ℚ) ^ d := by positivity
  have hr : (0 : ℤ) ≤ roundHalfEven (x * (10 : ℚ) ^ d) :=
    roundHalfEven_nonneg (by positivity)
  exact div_nonneg (by exact_mod_cast hr) (le_of_lt hp)

lemma pyRound_le_of_le {d : ℕ} {x : ℚ} {n : ℤ} (h : x ≤ n) : pyRound d x ≤ n := by
  unfold pyRound
  have hp : (0 : ℚ) < (10 : ℚ) ^ d := by positivity
  have hx : x * (10 : ℚ) ^ d ≤ ((n * 10 ^ d : ℤ) : ℚ) := by
    push_cast
    exact mul_le_mul_of_nonneg_right h (le_of_lt hp)
  have hr := roundHalfEven_le hx
  rw [div_le_iff₀ hp]
  calc ((roundHalfEven (x * (10 : ℚ) ^ d) : ℚ)) ≤ ((n * 10 ^ d : ℤ) : ℚ) := by
        exact_mod_cast hr
    _ = (n : ℚ) * (10 : ℚ) ^ d := by push_cast; ring

lemma passingDistances_length_le (col : List ℚ) (t τ : ℚ) :
    (passingDistances col t τ).length ≤ col.length := by
  unfold passingDistances
  calc ((col.map (fun h => |h - t|)).filter (fun d => decide (d ≤ τ))).length
      ≤ (col.map (fun h => |h - t|)).length := List.length_filter_le _ _
    _ = col.length := List.length_map _ _

lemma pct_in_range {c T : ℕ} (h : c ≤ T) :
    0 ≤ pyRound 2 (((c : ℚ) / (T : ℚ)) * 100) ∧
      pyRound 2 (((c : ℚ) / (T : ℚ)) * 100) ≤ 100 := by
  have h0 : (0 : ℚ) ≤ ((c : ℚ) / (T : ℚ)) * 100 := by positivity
  have h100 : ((c : ℚ) / (T : ℚ)) * 100 ≤ ((100 : ℤ) : ℚ) := by
    rcases Nat.eq_zero_or_pos T with hT | hT
    · subst hT
      have hc : c = 0 := Nat.le_zero.mp h
      subst hc
      norm_num
    · have hle : (c : ℚ) / (T : ℚ) ≤ 1 := by
        rw [div_le_one (by exact_mod_cast hT)]
        exact_mod_cast h
      push_cast
      nlinarith
  refine ⟨pyRound_nonneg h0, ?_⟩
  have := pyRound_le_of_le (d := 2) h100
  exact_mod_cast this

/-! Concrete data used by witnesses and counterexamples. -/

/-- The five records of test_process_fixture_odds_filters_bookmakers: three
bookmakers quote Match Winner / Home, only two quote Over/Under / Over 2.5. -/
def c6Records : List OddsRecord :=
  [{ fixture_id := 1, bookmaker_id := 1, bet_type_name := "Match Winner",
     bet_value := "Home", odd := 3/2 },
   { fixture_id := 1, bookmaker_id := 2, bet_type_name := "Match Winner",
     bet_value := "Home", odd := 8/5 },
   { fixture_id := 1, bookmaker_id := 3, bet_type_name := "Match Winner",
     bet_value := "Home", odd := 17/10 },
   { fixture_id := 1, bookmaker_id := 4, bet_type_name := "Over/Under",
     bet_value := "Over 2.5", odd := 2 },
   { fixture_id := 1, bookmaker_id := 5, bet_type_name := "Over/Under",
     bet_value := "Over 2.5", odd := 21/10 }]

/-- Historical column of the passing scenario of
test_calculate_similarity_with_all_thresholds: 12 values at 1.50 and 3 at
2.0. -/
def passColumn : List ℚ := List.replicate 12 (3/2) ++ List.replicate 3 2

/-- One-column historical matrix holding passColumn. -/
def passMatrix : List (String × List ℚ) := [("Pass_Bet", passColumn)]

/-- Target odds 1.52 for the passing scenario. -/
def passTargets : List (String × ℚ) := [("Pass_Bet", 38/25)]

/-- The result the daily engine emits for the passing scenario. -/
def passResult : SimilarityResult :=
  { similarity_percentage := 80, similar_matches_count := 12,
    total_historical_matches := 15, avg_distance := 1/50,
    target_odd := 38/25, similarity_reference_count := 12 }

/-- C1: every cell present in the feature matrix, in the daily builder
(create_comprehensive_feature_matrix) as well as in the analyzer builder
(create_feature_matrix), belongs to a (fixture_id, bet_identifier) group with
at least MIN_BOOKMAKERS_THRESHOLD distinct bookmaker_ids, and the cell value
equals the arithmetic mean of the odd values of that group's contributing
records. -/
theorem feature_cell_reliable_mean (thr : ℤ) (kts : List String)
    (l : List OddsRecord) (f : ℤ) (b : String) (v : ℚ) :
    (featureCell thr l f b = some v →
       thr ≤ (distinctBookmakers l f b : ℤ) ∧ groupRecords l f b ≠ [] ∧
         v = meanOdd (groupRecords l f b)) ∧
    (featureCellA kts thr l f b = some v →
       thr ≤ (distinctBookmakers (keyFilter kts l) f b : ℤ) ∧
         groupRecords (keyFilter kts l) f b ≠ [] ∧
         v = meanOdd (groupRecords (keyFilter kts l) f b)) :=
  ⟨fun h => featureCell_some h, fun h => featureCell_some h⟩

/-- Witness for C1 at the concrete test records: the Match Winner / Home cell
is present with value 8/5 and comes from a three-bookmaker group whose mean is
8/5, in both builders. -/
theorem feature_cell_reliable_mean_check :
    (featureCell 3 c6Records 1 "Match Winner_Home" = some (8/5) ∧
     featureCellA KEY_BET_TYPES 3 c6Records 1 "Match Winner_Home" = some (8/5)) ∧
    (3 ≤ (distinctBookmakers c6Records 1 "Match Winner_Home" : ℤ) ∧
      groupRecords c6Records 1 "Match Winner_Home" ≠ [] ∧
      (8/5 : ℚ) = meanOdd (groupRecords c6Records 1 "Match Winner_Home")) ∧
    (3 ≤ (distinctBookmakers (keyFilter KEY_BET_TYPES c6Records) 1 "Match Winner_Home" : ℤ) ∧
      groupRecords (keyFilter KEY_BET_TYPES c6Records) 1 "Match Winner_Home" ≠ [] ∧
      (8/5 : ℚ) = meanOdd (groupRecords (keyFilter KEY_BET_TYPES c6Records) 1 "Match Winner_Home")) :=
  ⟨⟨of_decide_eq_true (by with_unfolding_all rfl), of_decide_eq_true (by with_unfolding_all rfl)⟩,
   (feature_cell_reliable_mean 3 KEY_BET_TYPES c6Records 1 "Match Winner_Home" (8/5)).1
     (of_decide_eq_true (by with_unfolding_all rfl)),
   (feature_cell_reliable_mean 3 KEY_BET_TYPES c6Records 1 "Match Winner_Home" (8/5)).2
     (of_decide_eq_true (by with_unfolding_all rfl))⟩

/-- C7: building the feature matrix from any permutation of the input records
yields an identical matrix — identical cells, row set and column set, in both
builder variants — and rebuilding from the same input is deterministic. -/
theorem feature_matrix_order_independent (thr : ℤ) (kts : List String)
    (l l' : List OddsRecord) (h : l.Perm l') :
    (∀ f b, featureCell thr l f b = featureCell thr l' f b) ∧
    rowsSet thr l = rowsSet thr l' ∧
    colsSet thr l = colsSet thr l' ∧
    (∀ f b, featureCellA kts thr l f b = featureCellA kts thr l' f b) ∧
    (∀ f b, featureCell thr l f b = featureCell thr l f b) := by
  refine ⟨fun f b => featureCell_perm h f b, ?_, ?_, ?_, fun f b => rfl⟩
  · exact List.toFinset_eq_of_perm _ _ ((reliableKeys_perm h).map _)
  · exact List.toFinset_eq_of_perm _ _ ((reliableKeys_perm h).map _)
  · intro f b
    show featureCell thr (keyFilter kts l) f b = featureCell thr (keyFilter kts l') f b
    exact featureCell_perm (h.filter _) f b

/-- Witness for C7: the reversed test record list is a permutation of the
original and produces the same cell and the same row set. -/
theorem feature_matrix_order_independent_check :
    c6Records.Perm c6Records.reverse ∧
    featureCell 3 c6Records 1 "Match Winner_Home" =
      featureCell 3 c6Records.reverse 1 "Match Winner_Home" ∧
    rowsSet 3 c6Records = rowsSet 3 c6Records.reverse :=
  ⟨of_decide_eq_true (by with_unfolding_all rfl),
   (feature_matrix_order_independent 3 KEY_BET_TYPES c6Records c6Records.reverse
     (of_decide_eq_true (by with_unfolding_all rfl))).1 1 "Match Winner_Home",
   (feature_matrix_order_independent 3 KEY_BET_TYPES c6Records c6Records.reverse
     (of_decide_eq_true (by with_unfolding_all rfl))).2.1⟩

/-- C10: the mean_odds frame handed to the pivot step carries pairwise
distinct (fixture_id, bet_identifier) keys, in both builder variants, so the
pivot's duplicate-entries failure branch is unreachable. -/
theorem pivot_keys_nodup (thr : ℤ) (kts : List String) (l : List OddsRecord) :
    ((meanOddsRows thr l).map Prod.fst).Nodup ∧
    ((meanOddsRowsA kts thr l).map Prod.fst).Nodup := by
  have key : ∀ (m : List OddsRecord), ((meanOddsRows thr m).map Prod.fst).Nodup := by
    intro m
    have hm : (meanOddsRows thr m).map Prod.fst = reliableKeys thr m := by
      simp only [meanOddsRows, List.map_map]
      have hc : (Prod.fst ∘ fun k : ℤ × String =>
          (k, meanOdd (groupRecords m k.1 k.2))) = id := rfl
      rw [hc, List.map_id]
    rw [hm]
    exact (List.nodup_dedup _).filter _
  exact ⟨key l, key (keyFilter kts l)⟩

/-- C9: when MIN_SIMILAR_MATCHES_THRESHOLD is at least one, every result the
daily engine emits has total_historical_matches at least that threshold, so
the percentage division never sees a zero denominator. -/
theorem similarity_denominator_guarded (cfg : Config) (M : List (String × List ℚ))
    (targets : List (String × ℚ)) (b : String) (r : SimilarityResult)
    (h1 : 1 ≤ cfg.MIN_SIMILAR_MATCHES_THRESHOLD)
    (h2 : (b, r) ∈ calculateSimilarityForAllBets cfg M targets) :
    cfg.MIN_SIMILAR_MATCHES_THRESHOLD ≤ (r.total_historical_matches : ℤ) ∧
      0 < r.total_historical_matches := by
  obtain ⟨col, hl, hc⟩ := mem_calcAll h2
  obtain ⟨hlen, hcnt, hr⟩ := calcSimilarityForBet_some hc
  have htot : r.total_historical_matches = col.length := by rw [hr]
  constructor
  · rw [htot]; exact hlen
  · rw [htot]
    have hz : (1 : ℤ) ≤ (col.length : ℤ) := le_trans h1 hlen
    exact_mod_cast lt_of_lt_of_le zero_lt_one hz

/-- Witness for C9 at the passing test scenario: the emitted result has
fifteen historical matches, at least the threshold of ten. -/
theorem similarity_denominator_guarded_check :
    (1 ≤ defaultConfig.MIN_SIMILAR_MATCHES_THRESHOLD ∧
     ("Pass_Bet", passResult) ∈
       calculateSimilarityForAllBets defaultConfig passMatrix passTargets) ∧
    (defaultConfig.MIN_SIMILAR_MATCHES_THRESHOLD ≤
       (passResult.total_historical_matches : ℤ) ∧
     0 < passResult.total_historical_matches) :=
  ⟨⟨of_decide_eq_true (by with_unfolding_all rfl), of_decide_eq_true (by with_unfolding_all rfl)⟩,
   similarity_denominator_guarded defaultConfig passMatrix passTargets
     "Pass_Bet" passResult (of_decide_eq_true (by with_unfolding_all rfl)) (of_decide_eq_true (by with_unfolding_all rfl))⟩

lemma passingDistances_length_eq_countP (col : List ℚ) (t τ : ℚ) :
    (passingDistances col t τ).length =
      col.countP (fun h => decide (|h - t| ≤ τ)) := by
  unfold passingDistances
  rw [← List.countP_eq_length_filter, List.countP_map]
  rfl

/-- Historical column whose passing-distance mean does not survive the
4-decimal rounding intact: eleven values at 2.01 and one at 2.02. -/
def roundColumn : List ℚ := List.replicate 11 (201/100) ++ [101/50]

/-- One-column matrix holding roundColumn. -/
def roundMatrix : List (String × List ℚ) := [("Round_Bet", roundColumn)]

/-- Target odds 2.0 against roundColumn. -/
def roundTargets : List (String × ℚ) := [("Round_Bet", 2)]

/-- The result the daily engine emits for roundColumn and target 2.0: the
twelve distances all pass, their exact mean is 13/1200 but the stored
avg_distance is its 4-decimal rounding 27/2500. -/
def roundResult : SimilarityResult :=
  { similarity_percentage := 100, similar_matches_count := 12,
    total_historical_matches := 12, avg_distance := 27/2500,
    target_odd := 2, similarity_reference_count := 12 }

/-- Counterexample to C2 as stated: at the default configuration the engine
emits roundResult, whose passing distances have exact mean 13/1200, yet the
emitted avg_distance is 27/2500 — the code stores round(mean, 4), not the
mean itself. -/
theorem similarity_avg_distance_rounding_cex :
    calculateSimilarityForAllBets defaultConfig roundMatrix roundTargets =
      [("Round_Bet", roundResult)] ∧
    passingDistances roundColumn 2 defaultConfig.SIMILARITY_THRESHOLD =
      List.replicate 11 (1/100) ++ [1/50] ∧
    (passingDistances roundColumn 2 defaultConfig.SIMILARITY_THRESHOLD).sum /
      ((passingDistances roundColumn 2 defaultConfig.SIMILARITY_THRESHOLD).length : ℚ) =
      13/1200 ∧
    roundResult.avg_distance ≠ 13/1200 :=
  ⟨by with_unfolding_all rfl, by with_unfolding_all rfl, by with_unfolding_all rfl,
   of_decide_eq_true (by with_unfolding_all rfl)⟩

/-- C2 (amended): every result the daily engine emits reports
similarity_percentage = round(100 * similar_matches_count /
total_historical_matches, 2), which lies in [0, 100], and reports
avg_distance equal to the mean of the passing distances only — not of all
the column's distances — rounded to 4 decimal places. -/
theorem similarity_result_fields (cfg : Config) (M : List (String × List ℚ))
    (targets : List (String × ℚ)) (b : String) (r : SimilarityResult)
    (h : (b, r) ∈ calculateSimilarityForAllBets cfg M targets) :
    ∃ col, M.lookup b = some col ∧
      r.total_historical_matches = col.length ∧
      r.similar_matches_count =
        (passingDistances col r.target_odd cfg.SIMILARITY_THRESHOLD).length ∧
      r.similarity_percentage =
        pyRound 2 (((r.similar_matches_count : ℚ) /
          (r.total_historical_matches : ℚ)) * 100) ∧
      0 ≤ r.similarity_percentage ∧ r.similarity_percentage ≤ 100 ∧
      r.avg_distance =
        pyRound 4 ((passingDistances col r.target_odd cfg.SIMILARITY_THRESHOLD).sum /
          ((passingDistances col r.target_odd cfg.SIMILARITY_THRESHOLD).length : ℚ)) := by
  obtain ⟨col, hl, hc⟩ := mem_calcAll h
  obtain ⟨hlen, hcnt, hr⟩ := calcSimilarityForBet_some hc
  have htot : r.total_historical_matches = col.length := by rw [hr]
  have hsim : r.similar_matches_count =
      (passingDistances col r.target_odd cfg.SIMILARITY_THRESHOLD).length := by
    rw [hr]
  have hpct : r.similarity_percentage =
      pyRound 2 (((r.similar_matches_count : ℚ) /
        (r.total_historical_matches : ℚ)) * 100) := by
    rw [htot, hsim]
    rw [hr]
  have hbound := pct_in_range
    (passingDistances_length_le col r.target_odd cfg.SIMILARITY_THRESHOLD)
  refine ⟨col, hl, htot, hsim, hpct, ?_, ?_, by rw [hr]⟩
  · rw [hpct, hsim, htot]
    exact hbound.1
  · rw [hpct, hsim, htot]
    exact hbound.2

/-- Witness for C2 at the passing test scenario. -/
theorem similarity_result_fields_check :
    ("Pass_Bet", passResult) ∈
      calculateSimilarityForAllBets defaultConfig passMatrix passTargets ∧
    (∃ col, passMatrix.lookup "Pass_Bet" = some col ∧
      passResult.total_historical_matches = col.length ∧
      passResult.similar_matches_count =
        (passingDistances col passResult.target_odd
          defaultConfig.SIMILARITY_THRESHOLD).length ∧
      passResult.similarity_percentage =
        pyRound 2 (((passResult.similar_matches_count : ℚ) /
          (passResult.total_historical_matches : ℚ)) * 100) ∧
      0 ≤ passResult.similarity_percentage ∧ passResult.similarity_percentage ≤ 100 ∧
      passResult.avg_distance =
        pyRound 4 ((passingDistances col passResult.target_odd
            defaultConfig.SIMILARITY_THRESHOLD).sum /
          ((passingDistances col passResult.target_odd
            defaultConfig.SIMILARITY_THRESHOLD).length : ℚ))) :=
  ⟨of_decide_eq_true (by with_unfolding_all rfl),
   similarity_result_fields defaultConfig passMatrix passTargets "Pass_Bet" passResult
     (of_decide_eq_true (by with_unfolding_all rfl))⟩

/-- Demo-variant column: nine values far from the target and one exactly at
it, ten values in total. -/
def demoColumn : List ℚ := List.replicate 9 3 ++ [3/2]

/-- One-column matrix holding demoColumn. -/
def demoMatrix : List (String × List ℚ) := [("Demo_Bet", demoColumn)]

/-- Target odds 1.5 against demoColumn. -/
def demoTargets : List (String × ℚ) := [("Demo_Bet", 3/2)]

/-- The result the demo variant emits for demoColumn: a single similar match
out of ten. -/
def demoResult : DemoSimilarityResult :=
  { similarity_percentage := 10, similar_matches_count := 1,
    total_historical_matches := 10, avg_distance := 0,
    target_odd := 3/2, confidence_score := 2 }

/-- Counterexample to C4 as stated over both cited variants: at the demo
variant's own tolerance 0.15, a bet with a single similar match out of ten is
emitted, and 1 is below MIN_SIMILAR_MATCHES_THRESHOLD = 10 — the demo
variant's emit condition is merely one similar match. -/
theorem demo_count_gate_cex :
    demoCalculateSimilarityForAllBets (3/20) demoMatrix demoTargets =
      [("Demo_Bet", demoResult)] ∧
    demoResult.similar_matches_count = 1 ∧
    (demoResult.similar_matches_count : ℤ) <
      defaultConfig.MIN_SIMILAR_MATCHES_THRESHOLD :=
  ⟨by with_unfolding_all rfl, rfl, of_decide_eq_true (by with_unfolding_all rfl)⟩

/-- C4 (amended): the daily workflow engine never emits a result with
similar_matches_count below MIN_SIMILAR_MATCHES_THRESHOLD; the demo variant
guarantees only at least one similar match and at least ten historical
values, so counts below the configured threshold can appear there. -/
theorem similarity_count_gates :
    (∀ (cfg : Config) (M : List (String × List ℚ)) (targets : List (String × ℚ))
        (b : String) (r : SimilarityResult),
       (b, r) ∈ calculateSimilarityForAllBets cfg M targets →
         cfg.MIN_SIMILAR_MATCHES_THRESHOLD ≤ (r.similar_matches_count : ℤ)) ∧
    (∀ (τ : ℚ) (M : List (String × List ℚ)) (targets : List (String × ℚ))
        (b : String) (r : DemoSimilarityResult),
       (b, r) ∈ demoCalculateSimilarityForAllBets τ M targets →
         1 ≤ r.similar_matches_count ∧ 10 ≤ r.total_historical_matches) := by
  constructor
  · intro cfg M targets b r h
    obtain ⟨col, hl, hc⟩ := mem_calcAll h
    obtain ⟨hlen, hcnt, hr⟩ := calcSimilarityForBet_some hc
    have hs : r.similar_matches_count =
        (passingDistances col r.target_odd cfg.SIMILARITY_THRESHOLD).length := by
      rw [hr]
    rw [hs]
    exact hcnt
  · intro τ M targets b r h
    obtain ⟨col, t, hl, hc⟩ := mem_demoCalcAll h
    obtain ⟨h10, hpos, hcnt, htot⟩ := demoCalc_some hc
    constructor
    · rw [hcnt]; exact hpos
    · rw [htot]; exact h10

/-- Witness for C4's amended statement: the count gate holds at the passing
scenario of the daily engine, and the demo-variant guarantee holds at the
demo scenario. -/
theorem similarity_count_gates_check :
    (("Pass_Bet", passResult) ∈
       calculateSimilarityForAllBets defaultConfig passMatrix passTargets ∧
     defaultConfig.MIN_SIMILAR_MATCHES_THRESHOLD ≤
       (passResult.similar_matches_count : ℤ)) ∧
    (("Demo_Bet", demoResult) ∈
       demoCalculateSimilarityForAllBets (3/20) demoMatrix demoTargets ∧
     1 ≤ demoResult.similar_matches_count ∧
     10 ≤ demoResult.total_historical_matches) :=
  ⟨⟨of_decide_eq_true (by with_unfolding_all rfl),
    similarity_count_gates.1 defaultConfig passMatrix passTargets "Pass_Bet" passResult
      (of_decide_eq_true (by with_unfolding_all rfl))⟩,
   ⟨of_decide_eq_true (by with_unfolding_all rfl),
    similarity_count_gates.2 (3/20) demoMatrix demoTargets "Demo_Bet" demoResult
      (of_decide_eq_true (by with_unfolding_all rfl))⟩⟩

/-- A historical row quoting 1.6 on market B and nothing else. -/
def boundaryRow : HistRow :=
  { fixture_id := 1, cellOf := fun b => if b = "B" then some (8/5) else none }

/-- Counterexample to C5 as stated: against a target of 1.5 the row's
distance is exactly the threshold 0.1, the per-bet-type daily engine counts
it as similar (count 1), but find_similar_matches returns the empty list —
its comparison is strict, the boundary case is excluded there. -/
theorem boundary_strict_cex :
    rowDiffs ["B"] [("B", 3/2)] boundaryRow = [1/10] ∧
    findSimilarMatches [("B", 3/2)] ["B"] [boundaryRow] (1/10) = [] ∧
    (calcSimilarityForBet
        { SIMILARITY_THRESHOLD := 1/10, MIN_BOOKMAKERS_THRESHOLD := 3,
          MIN_SIMILAR_MATCHES_THRESHOLD := 1 } [8/5] (3/2)).map
      (fun r => r.similar_matches_count) = some 1 :=
  ⟨by with_unfolding_all rfl, by with_unfolding_all rfl, by with_unfolding_all rfl⟩

/-- C5 (amended): in the per-bet-type daily engine a historical value is
counted as a similar match iff its absolute distance to the target is at most
SIMILARITY_THRESHOLD — the boundary case distance = threshold is included —
whereas the find_similar_matches variant keeps only fixtures whose mean
distance over the common bets is strictly below the threshold, excluding the
boundary case. -/
theorem boundary_handling :
    (∀ (cfg : Config) (col : List ℚ) (t : ℚ) (r : SimilarityResult),
       calcSimilarityForBet cfg col t = some r →
         r.similar_matches_count =
           col.countP (fun h => decide (|h - t| ≤ cfg.SIMILARITY_THRESHOLD))) ∧
    (∀ (tv : List (String × ℚ)) (cols : List String) (rows : List HistRow)
        (τ : ℚ) (fx : ℤ) (d : ℚ),
       (fx, d) ∈ findSimilarMatches tv cols rows τ → d < τ) := by
  constructor
  · intro cfg col t r h
    have hs := (calcSimilarityForBet_some h).2.2
    have : r.similar_matches_count =
        (passingDistances col t cfg.SIMILARITY_THRESHOLD).length := by
      rw [hs]
    rw [this, passingDistances_length_eq_countP]
  · intro tv cols rows τ fx d h
    simp only [findSimilarMatches] at h
    rw [List.mem_mergeSort] at h
    have hd := (List.mem_filter.mp h).2
    exact of_decide_eq_true hd

/-- Witness for C5's amended statement at a one-value column and the
boundary row. -/
theorem boundary_handling_check :
    (calcSimilarityForBet
        { SIMILARITY_THRESHOLD := 1/10, MIN_BOOKMAKERS_THRESHOLD := 3,
          MIN_SIMILAR_MATCHES_THRESHOLD := 1 } [8/5] (3/2) = some
        { similarity_percentage := 100, similar_matches_count := 1,
          total_historical_matches := 1, avg_distance := 1/10,
          target_odd := 3/2, similarity_reference_count := 1 } ∧
      (1 : ℕ) = ([8/5] : List ℚ).countP (fun h => decide (|h - 3/2| ≤ 1/10))) ∧
    ((1, 1/20) ∈ findSimilarMatches [("B", 31/20)] ["B"] [boundaryRow] (1/10) ∧
      (1/20 : ℚ) < 1/10) :=
  ⟨⟨of_decide_eq_true (by with_unfolding_all rfl),
    boundary_handling.1
      { SIMILARITY_THRESHOLD := 1/10, MIN_BOOKMAKERS_THRESHOLD := 3,
        MIN_SIMILAR_MATCHES_THRESHOLD := 1 } [8/5] (3/2)
      { similarity_percentage := 100, similar_matches_count := 1,
        total_historical_matches := 1, avg_distance := 1/10,
        target_odd := 3/2, similarity_reference_count := 1 }
      (of_decide_eq_true (by with_unfolding_all rfl))⟩,
   ⟨of_decide_eq_true (by with_unfolding_all rfl),
    boundary_handling.2 [("B", 31/20)] ["B"] [boundaryRow] (1/10) 1 (1/20)
      (of_decide_eq_true (by with_unfolding_all rfl))⟩⟩

/-- Historical column of the failing-percentage scenario of
test_calculate_similarity_with_all_thresholds: 12 values at 2.20 and 8 at
3.0. -/
def pctColumn : List ℚ := List.replicate 12 (11/5) ++ List.replicate 8 3

/-- One-column matrix holding pctColumn. -/
def pctMatrix : List (String × List ℚ) := [("Fail_Pct_Bet", pctColumn)]

/-- Target odds 2.22 for the failing-percentage scenario. -/
def pctTargets : List (String × ℚ) := [("Fail_Pct_Bet", 111/50)]

/-- The result the daily engine emits for the failing-percentage scenario:
12 of 20, i.e. 60 percent. -/
def pctResult : SimilarityResult :=
  { similarity_percentage := 60, similar_matches_count := 12,
    total_historical_matches := 20, avg_distance := 1/50,
    target_odd := 111/50, similarity_reference_count := 12 }

/-- C3: run of the daily engine at the test suite's failing-percentage
scenario — the engine emits Fail_Pct_Bet with similarity_percentage 60,
strictly below MIN_SIMILARITY_PCT_THRESHOLD = 70, although
test_calculate_similarity_with_all_thresholds asserts the identifier must be
absent: the percentage gate is not implemented in
calculate_similarity_for_all_bets. -/
theorem pct_gate_missing_run :
    calculateSimilarityForAllBets defaultConfig pctMatrix pctTargets =
      [("Fail_Pct_Bet", pctResult)] ∧
    pctResult.similarity_percentage < MIN_SIMILARITY_PCT_THRESHOLD :=
  ⟨by with_unfolding_all rfl, of_decide_eq_true (by with_unfolding_all rfl)⟩

/-- C6: run of process_fixture_odds at the record set of
test_process_fixture_odds_filters_bookmakers — the Over/Under Over 2.5
market is quoted by only two bookmakers, below MIN_BOOKMAKERS_THRESHOLD = 3,
so it is absent from the feature-matrix row, yet process_fixture_odds keeps
it (with mean 2.05): the target vector applies no bookmaker-count filter,
contradicting the test and the claimed equality with a matrix row. -/
theorem target_vector_unfiltered_run :
    distinctBookmakers c6Records 1 "Over/Under_Over 2.5" = 2 ∧
    (distinctBookmakers c6Records 1 "Over/Under_Over 2.5" : ℤ) <
      defaultConfig.MIN_BOOKMAKERS_THRESHOLD ∧
    processFixtureOdds c6Records "Over/Under_Over 2.5" = some (41/20) ∧
    featureCell defaultConfig.MIN_BOOKMAKERS_THRESHOLD c6Records 1
      "Over/Under_Over 2.5" = none ∧
    processFixtureOdds c6Records "Match Winner_Home" = some (8/5) ∧
    featureCell defaultConfig.MIN_BOOKMAKERS_THRESHOLD c6Records 1
      "Match Winner_Home" = some (8/5) :=
  ⟨by with_unfolding_all rfl, of_decide_eq_true (by with_unfolding_all rfl),
   by with_unfolding_all rfl, by with_unfolding_all rfl,
   by with_unfolding_all rfl, by with_unfolding_all rfl⟩

/-- A configuration whose every threshold is outside its valid range. -/
def badConfig : Config :=
  { SIMILARITY_THRESHOLD := -1, MIN_BOOKMAKERS_THRESHOLD := -1,
    MIN_SIMILAR_MATCHES_THRESHOLD := -1 }

/-- A one-record historical corpus: a single bookmaker quoting one market. -/
def c8Records : List OddsRecord :=
  [{ fixture_id := 1, bookmaker_id := 1, bet_type_name := "Match Winner",
     bet_value := "Home", odd := 3/2 }]

/-- Counterexample to C8 as stated: with every threshold invalid (negative
counts, negative similarity tolerance) start-up still succeeds and matrix
construction proceeds — it even emits a cell backed by a single bookmaker. -/
theorem startup_no_validation_cex :
    workflowInit badConfig c8Records =
      Except.ok (featureCell badConfig.MIN_BOOKMAKERS_THRESHOLD c8Records) ∧
    featureCell badConfig.MIN_BOOKMAKERS_THRESHOLD c8Records 1
      "Match Winner_Home" = some (3/2) ∧
    distinctBookmakers c8Records 1 "Match Winner_Home" = 1 :=
  ⟨rfl, by with_unfolding_all rfl, by with_unfolding_all rfl⟩

/-- C8 (amended): no start-up validation exists — initialization always
succeeds, for every configuration, and proceeds directly to matrix
construction with the configured values used as-is; in particular with a
non-positive MIN_BOOKMAKERS_THRESHOLD every observed
(fixture_id, bet_identifier) group produces a matrix cell. -/
theorem startup_never_fails (cfg : Config) (hist : List OddsRecord) :
    workflowInit cfg hist =
      Except.ok (featureCell cfg.MIN_BOOKMAKERS_THRESHOLD hist) ∧
    (cfg.MIN_BOOKMAKERS_THRESHOLD ≤ 0 → ∀ f b,
      ((featureCell cfg.MIN_BOOKMAKERS_THRESHOLD hist f b).isSome ↔
        (f, b) ∈ allKeys hist)) := by
  refine ⟨rfl, ?_⟩
  intro hthr f b
  constructor
  · intro hs
    by_cases hm : (f, b) ∈ reliableKeys cfg.MIN_BOOKMAKERS_THRESHOLD hist
    · exact (mem_reliableKeys.mp hm).1
    · simp [featureCell, hm] at hs
  · intro hk
    have hm : (f, b) ∈ reliableKeys cfg.MIN_BOOKMAKERS_THRESHOLD hist :=
      mem_reliableKeys.mpr ⟨hk, le_trans hthr (Int.natCast_nonneg _)⟩
    simp [featureCell, hm]

/-- Witness for C8's amended statement at the invalid configuration and the
one-record corpus. -/
theorem startup_never_fails_check :
    badConfig.MIN_BOOKMAKERS_THRESHOLD ≤ 0 ∧
    workflowInit badConfig c8Records =
      Except.ok (featureCell badConfig.MIN_BOOKMAKERS_THRESHOLD c8Records) ∧
    ((featureCell badConfig.MIN_BOOKMAKERS_THRESHOLD c8Records 1
        "Match Winner_Home").isSome ↔
      (1, "Match Winner_Home") ∈ allKeys c8Records) :=
  ⟨of_decide_eq_true (by with_unfolding_all rfl),
   (startup_never_fails badConfig c8Records).1,
   (startup_never_fails badConfig c8Records).2
     (of_decide_eq_true (by with_unfolding_all rfl)) 1 "Match Winner_Home"⟩
